import Mathlib

/-!
Verification development for the VitalSync signal-synthesis and data-routing
core.  The definitions below are a shallow embedding of the C++ sources:

* `src/core/parameter_model.cpp`  — `ParameterModel` (value, four thresholds,
  alarm-state derivation in `UpdateValue` and `UpdateAlarmState`).
* `src/core/waveform_model.cpp`   — `WaveformModel` (bounded FIFO buffer,
  out-of-order rejection, construction-time buffer sizing).
* `src/core/data_manager.cpp`     — `DataManager` (provider switching,
  model-map initialization, persistence of the active provider name).
* `src/providers/demo_data_provider.cpp` — the synthetic generator's
  parameter tick and its exception handling at the tick boundary.

Numeric conventions: C++ `float`/`double` values are modelled as `ℚ`
(the claims under study involve only order comparisons, clamping, integer
rounding and exact small-denominator arithmetic, all of which the rational
idealization captures); C++ `int`/`qint64` are modelled as `ℤ`.  Calls to
the random generator and to the transcendental `sin` are modelled as
explicit inputs (oracle fields), so every theorem quantifies over all
possible draws.  Qt signal emissions are modelled as returned flags or
action lists.
-/

/-- Alarm severity states of `IParameterModel::AlarmState`
(`Technical` is reachable only by external injection). -/
inductive AlarmState where
  | Normal
  | HighWarning
  | HighCritical
  | LowWarning
  | LowCritical
  | Technical
deriving DecidableEq, Repr, BEq

/-- State of a `ParameterModel` (`parameter_model.cpp`): current value,
four alarm thresholds, current alarm severity, active flag, and the
timestamp of the last update (`none` models the wall-clock fallback
`QDateTime::currentDateTime()` taken when the given timestamp is ≤ 0). -/
structure ParameterModel where
  value : ℚ
  lowCritical : ℚ
  lowWarning : ℚ
  highWarning : ℚ
  highCritical : ℚ
  alarmState : AlarmState
  active : Bool
  timestamp : Option ℤ
deriving DecidableEq, Repr

/-- The inline severity chain of `ParameterModel::UpdateValue`
(parameter_model.cpp lines 266–276): strict comparisons, high thresholds
checked before low thresholds. -/
def updateValueAlarmState (v lc lw hw hc : ℚ) : AlarmState :=
  if v > hc then .HighCritical
  else if v > hw then .HighWarning
  else if v < lc then .LowCritical
  else if v < lw then .LowWarning
  else .Normal

/-- The severity chain of `ParameterModel::UpdateAlarmState`
(parameter_model.cpp lines 366–382): non-strict comparisons, low
thresholds checked before high thresholds.  Called by `SetAlarmLimits`. -/
def updateAlarmStateCalc (v lc lw hw hc : ℚ) : AlarmState :=
  if v ≤ lc then .LowCritical
  else if v ≤ lw then .LowWarning
  else if v ≥ hc then .HighCritical
  else if v ≥ hw then .HighWarning
  else .Normal

/-- `ParameterModel::UpdateValue(timestamp, new_value)`: recompute severity
with the inline chain, store value and timestamp, and report whether
`propertiesChanged` is emitted (iff value or severity changed). -/
def UpdateValue (s : ParameterModel) (timestamp : ℤ) (new_value : ℚ) :
    ParameterModel × Bool :=
  let newAlarm := updateValueAlarmState new_value
    s.lowCritical s.lowWarning s.highWarning s.highCritical
  let s' : ParameterModel :=
    { s with
      value := new_value
      alarmState := newAlarm
      timestamp := if 0 < timestamp then some timestamp else none }
  (s', (s.value != new_value) || (s.alarmState != newAlarm))

/-- `ParameterModel::SetAlarmLimits(lc, lw, hw, hc)`: replace the four
thresholds, recompute severity via `UpdateAlarmState`, emit
`propertiesChanged` always (second component) and `alarmStateChanged`
iff the severity changed (third component). -/
def SetAlarmLimits (s : ParameterModel) (lc lw hw hc : ℚ) :
    ParameterModel × Bool × Bool :=
  let newAlarm := updateAlarmStateCalc s.value lc lw hw hc
  let s' : ParameterModel :=
    { s with
      lowCritical := lc, lowWarning := lw
      highWarning := hw, highCritical := hc
      alarmState := newAlarm }
  (s', true, s.alarmState != newAlarm)

/-- A freshly constructed `ParameterModel` with the given thresholds
(constructor sets `value_ = 0.0f`, `alarm_state_ = Normal`,
`active_ = false`; parameter_model.cpp lines 24–47). -/
def mkParameterModel (lc lw hw hc : ℚ) : ParameterModel :=
  { value := 0
    lowCritical := lc, lowWarning := lw
    highWarning := hw, highCritical := hc
    alarmState := .Normal
    active := false
    timestamp := none }

/-- `VitalSync::GetDefaultAlarmLimits` for heart rate
(vital_sync_types.h line 308). -/
def hrDefaultAlarmLimits : ℚ × ℚ × ℚ × ℚ := (40, 50, 120, 150)

/-- A heart-rate `ParameterModel` with the default thresholds (40,50,120,150). -/
def pmHR : ParameterModel := mkParameterModel 40 50 120 150

/-- The severity derivation exactly as the specification words it for
`updateValue` (spec §4.3): value > highCritical → HighCritical; else
value > highWarning → HighWarning; else value < lowCritical → LowCritical;
else value < lowWarning → LowWarning; else Normal.  Used to compare the
code's behaviour against the spec (refinement). -/
def severitySpecUpdateValue (v lc lw hw hc : ℚ) : AlarmState :=
  if v > hc then .HighCritical
  else if v > hw then .HighWarning
  else if v < lc then .LowCritical
  else if v < lw then .LowWarning
  else .Normal

/-- C1 counterexample: with thresholds (40,50,120,150) and final value 40,
reaching the same final (value, thresholds) state by `setAlarmLimits` last
versus `updateValue` last yields DIFFERENT severities (LowCritical vs
LowWarning), because `SetAlarmLimits` derives severity through
`UpdateAlarmState` (non-strict comparisons, low-first) while `UpdateValue`
uses its own inline chain (strict comparisons, high-first).  So severity is
not a pure function of (value, thresholds). -/
theorem C1_severity_not_pure_counterexample :
    let pathA := (SetAlarmLimits (UpdateValue pmHR 1 40).1 40 50 120 150).1
    let pathB := (UpdateValue (SetAlarmLimits pmHR 40 50 120 150).1 2 40).1
    pathA.value = pathB.value ∧
    pathA.lowCritical = pathB.lowCritical ∧
    pathA.lowWarning = pathB.lowWarning ∧
    pathA.highWarning = pathB.highWarning ∧
    pathA.highCritical = pathB.highCritical ∧
    pathA.alarmState = AlarmState.LowCritical ∧
    pathB.alarmState = AlarmState.LowWarning ∧
    pathA.alarmState ≠ pathB.alarmState := by
  decide

/-- C1 amended: the two severity derivations (`UpdateValue`'s inline chain
and `SetAlarmLimits`/`UpdateAlarmState`) agree — i.e. severity is a pure
function of (value, thresholds) independent of update order — provided the
thresholds are strictly monotonic and the value is not exactly equal to any
threshold.  At threshold-equal values the two paths can disagree
(see the counterexample). -/
theorem C1_severity_pure_off_thresholds (v lc lw hw hc : ℚ)
    (h1 : lc < lw) (h2 : lw < hw) (h3 : hw < hc)
    (n1 : v ≠ lc) (n2 : v ≠ lw) (n3 : v ≠ hw) (n4 : v ≠ hc) :
    updateValueAlarmState v lc lw hw hc = updateAlarmStateCalc v lc lw hw hc := by
  unfold updateValueAlarmState updateAlarmStateCalc
  rcases lt_or_gt_of_ne n1 with a1 | a1
  · have b1 : ¬ v > hc := by linarith
    have b2 : ¬ v > hw := by linarith
    have b3 : v ≤ lc := le_of_lt a1
    simp [a1, b1, b2, b3]
  · rcases lt_or_gt_of_ne n2 with a2 | a2
    · have b1 : ¬ v > hc := by linarith
      have b2 : ¬ v > hw := by linarith
      have b3 : ¬ v < lc := by linarith
      have b4 : ¬ v ≤ lc := by linarith
      have b5 : v ≤ lw := le_of_lt a2
      simp [a2, b1, b2, b3, b4, b5]
    · rcases lt_or_gt_of_ne n3 with a3 | a3
      · have b1 : ¬ v > hc := by linarith
        have b2 : ¬ v > hw := by linarith
        have b3 : ¬ v < lc := by linarith
        have b4 : ¬ v < lw := by linarith
        have b5 : ¬ v ≤ lc := by linarith
        have b6 : ¬ v ≤ lw := by linarith
        have b7 : ¬ v ≥ hc := by linarith
        have b8 : ¬ v ≥ hw := by linarith
        simp [b1, b2, b3, b4, b5, b6, b7, b8]
      · rcases lt_or_gt_of_ne n4 with a4 | a4
        · have b1 : ¬ v > hc := by linarith
          have b5 : ¬ v ≤ lc := by linarith
          have b6 : ¬ v ≤ lw := by linarith
          have b7 : ¬ v ≥ hc := by linarith
          have b8 : v ≥ hw := le_of_lt a3
          simp [a3, b1, b5, b6, b7, b8]
        · have b5 : ¬ v ≤ lc := by linarith
          have b6 : ¬ v ≤ lw := by linarith
          have b7 : v ≥ hc := le_of_lt a4
          simp [a4, b5, b6, b7]

/-- Witness for the C1 amended theorem at v = 45, thresholds (40,50,120,150). -/
theorem C1_severity_pure_off_thresholds_witness :
    updateValueAlarmState 45 40 50 120 150 = updateAlarmStateCalc 45 40 50 120 150 :=
  C1_severity_pure_off_thresholds 45 40 50 120 150
    (by norm_num) (by norm_num) (by norm_num)
    (by norm_num) (by norm_num) (by norm_num) (by norm_num)

/-- C2: `UpdateValue` derives severity exactly by the spec's priority order
(high-critical, then high-warning, then low-critical, then low-warning, else
normal, all strict comparisons); concretely, with the default HR thresholds
(40,50,120,150) the successive updates 160, 125, 90, 35 yield HighCritical,
HighWarning, Normal, LowCritical; and the high-threshold checks run before
the low-threshold checks even for non-monotonic thresholds (with
lc = 100, lw = 110, hw = 20, hc = 150, the value 50 — simultaneously below
lowCritical and above highWarning — reports HighWarning). -/
theorem C2_updateValue_priority_order :
    (∀ (s : ParameterModel) (t : ℤ) (v : ℚ),
      ((UpdateValue s t v).1).alarmState =
        severitySpecUpdateValue v s.lowCritical s.lowWarning s.highWarning s.highCritical) ∧
    (let s1 := (UpdateValue pmHR 1 160).1
     let s2 := (UpdateValue s1 2 125).1
     let s3 := (UpdateValue s2 3 90).1
     let s4 := (UpdateValue s3 4 35).1
     s1.alarmState = AlarmState.HighCritical ∧
     s2.alarmState = AlarmState.HighWarning ∧
     s3.alarmState = AlarmState.Normal ∧
     s4.alarmState = AlarmState.LowCritical) ∧
    ((UpdateValue (mkParameterModel 100 110 20 150) 1 50).1).alarmState =
      AlarmState.HighWarning := by
  refine ⟨fun s t v => rfl, by decide, by decide⟩

/-- State of a `WaveformModel` (`waveform_model.cpp`): the rolling sample
buffer `data_`, the configured capacity `max_buffer_size_`, the last
accepted sample timestamp `last_timestamp_` and the active flag. -/
structure WaveformModel where
  data : List ℚ
  maxBufferSize : ℕ
  lastTimestamp : ℤ
  active : Bool
deriving DecidableEq, Repr

/-- `DEFAULT_BUFFER_SIZE` from waveform_model.cpp line 23. -/
def DEFAULT_BUFFER_SIZE : ℕ := 1000

/-- `QVector::resize(n)`: keeps the first `min n (length)` elements and pads
with default-constructed values (`0.0f`) up to length `n`. -/
def listResize (l : List ℚ) (n : ℕ) : List ℚ :=
  l.take n ++ List.replicate (n - l.length) 0

/-- The `WaveformModel` constructor (waveform_model.cpp lines 35–111),
restricted to the fields the claims touch: the buffer is sized to
`DEFAULT_BUFFER_SIZE` and pre-filled with the low-amplitude sine seed
`0.5f * sinf(2*pi*i/N)` — the transcendental seed values are abstracted
into the `seed` argument, which maps the sample index to its seeded value —
then, if the loaded configuration holds a `bufferSize` entry, the buffer is
resized to that size.  `last_timestamp_` starts at 0 and `active_` at true
(a stored `active` entry could override the flag; the claims under study
concern only the buffer length, so that override is not modelled). -/
def mkWaveformModel (seed : ℕ → ℚ) (cfgBufferSize : Option ℕ) : WaveformModel :=
  let base : List ℚ := (List.range DEFAULT_BUFFER_SIZE).map seed
  match cfgBufferSize with
  | none => { data := base, maxBufferSize := DEFAULT_BUFFER_SIZE
              lastTimestamp := 0, active := true }
  | some n => { data := listResize base n, maxBufferSize := n
                lastTimestamp := 0, active := true }

/-- `WaveformModel::addWaveformData(timestamp, data)` (waveform_model.cpp
lines 293–340).  Returns the new state and whether `dataUpdated` was
emitted.  Rejections: empty batch or inactive model; out-of-order timestamp
(`timestamp <= last_timestamp_ && last_timestamp_ != 0`).  On acceptance:
if the batch size reaches the current buffer length the buffer becomes the
tail of the batch (`data.mid(data.size() - bufferSize)`); otherwise the two
in-place loops shift the existing contents left by the batch size and write
the batch at the end, which is `data_.drop k ++ batch` for batch size `k`. -/
def addWaveformData (timestamp : ℤ) (batch : List ℚ) (s : WaveformModel) :
    WaveformModel × Bool :=
  if batch = [] ∨ s.active = false then (s, false)
  else if timestamp ≤ s.lastTimestamp ∧ s.lastTimestamp ≠ 0 then (s, false)
  else
    let bufferSize := s.data.length
    let numToAdd := batch.length
    let newData :=
      if bufferSize ≤ numToAdd then batch.drop (numToAdd - bufferSize)
      else s.data.drop numToAdd ++ batch
    ({ s with data := newData, lastTimestamp := timestamp }, true)

/-- C3: for an active waveform model whose buffer holds `N` samples, an
accepted `addSamples` call (non-empty batch, strictly increasing timestamp)
replaces the buffer with the last `N` samples of the batch when the batch
size is ≥ `N`, and otherwise shifts the existing contents left by the batch
size and appends the batch; in both cases the buffer length stays `N`. -/
theorem C3_addSamples_fifo (s : WaveformModel) (t : ℤ) (batch : List ℚ) (N : ℕ)
    (hact : s.active = true) (hlen : s.data.length = N) (hne : batch ≠ [])
    (ht : s.lastTimestamp < t) :
    (addWaveformData t batch s).1.data =
      (if N ≤ batch.length then batch.drop (batch.length - N)
       else s.data.drop batch.length ++ batch) ∧
    (addWaveformData t batch s).1.data.length = N := by
  have hrej1 : ¬ (batch = [] ∨ s.active = false) := by
    simp [hne, hact]
  have hrej2 : ¬ (t ≤ s.lastTimestamp ∧ s.lastTimestamp ≠ 0) := by
    intro h
    exact absurd h.1 (not_le_of_lt ht)
  constructor
  · simp only [addWaveformData, if_neg hrej1, if_neg hrej2, hlen]
  · simp only [addWaveformData, if_neg hrej1, if_neg hrej2]
    by_cases hc : s.data.length ≤ batch.length
    · simp only [if_pos hc, List.length_drop]
      omega
    · simp only [if_neg hc, List.length_append, List.length_drop]
      omega

/-- Witness for C3 at capacity 5: buffer `[9,8,1,2,3]` (the state after an
earlier accepted batch `[1,2,3]` over a seeded buffer), batch `[4,5,6]` at a
later timestamp, yields buffer `[2,3,4,5,6]` of length 5 — Scenario B. -/
theorem C3_addSamples_fifo_witness :
    (addWaveformData 2 [4, 5, 6] ⟨[9, 8, 1, 2, 3], 5, 1, true⟩).1.data =
      [2, 3, 4, 5, 6] ∧
    (addWaveformData 2 [4, 5, 6] ⟨[9, 8, 1, 2, 3], 5, 1, true⟩).1.data.length = 5 := by
  have h := C3_addSamples_fifo ⟨[9, 8, 1, 2, 3], 5, 1, true⟩ 2 [4, 5, 6] 5
    rfl rfl (by decide) (by decide)
  refine ⟨?_, h.2⟩
  rw [h.1]
  decide

/-- C4 counterexample: on a freshly constructed model (`last_timestamp_ = 0`)
a first call whose timestamp (−5) is ≤ the last accepted timestamp (0) is
NOT rejected: the guard `timestamp <= last_timestamp_ && last_timestamp_ != 0`
exempts the 0 sentinel, so the buffer mutates, the stored timestamp changes
and `dataUpdated` is emitted. -/
theorem C4_out_of_order_counterexample :
    (-5 : ℤ) ≤ (WaveformModel.mk [0, 0, 0] 3 0 true).lastTimestamp ∧
    (addWaveformData (-5) [7] ⟨[0, 0, 0], 3, 0, true⟩).1.data = [0, 0, 7] ∧
    (addWaveformData (-5) [7] ⟨[0, 0, 0], 3, 0, true⟩).1.lastTimestamp = -5 ∧
    (addWaveformData (-5) [7] ⟨[0, 0, 0], 3, 0, true⟩).2 = true := by
  refine ⟨by decide, ?_, by decide, by decide⟩
  decide

/-- C4 amended: whenever the stored last-accepted timestamp is nonzero, a
call with a non-increasing timestamp is rejected without any mutation and
without emitting `dataUpdated`; a freshly constructed model
(`last_timestamp_ = 0`) accepts ANY first timestamp, including ≤ 0. -/
theorem C4_out_of_order_rejected (s : WaveformModel) (t : ℤ) (batch : List ℚ)
    (hlast : s.lastTimestamp ≠ 0) (ht : t ≤ s.lastTimestamp) :
    addWaveformData t batch s = (s, false) := by
  unfold addWaveformData
  by_cases h1 : batch = [] ∨ s.active = false
  · rw [if_pos h1]
  · rw [if_neg h1, if_pos ⟨ht, hlast⟩]

/-- Witness for the C4 amended theorem: last timestamp 10, incoming 5. -/
theorem C4_out_of_order_rejected_witness :
    addWaveformData 5 [3] ⟨[1, 2], 2, 10, true⟩ = (⟨[1, 2], 2, 10, true⟩, false) :=
  C4_out_of_order_rejected ⟨[1, 2], 2, 10, true⟩ 5 [3] (by decide) (by decide)

/-- Unfolding helper: without a `bufferSize` entry the constructed buffer is
the seeded range of length `DEFAULT_BUFFER_SIZE`. -/
theorem mkWaveformModel_none_data (seed : ℕ → ℚ) :
    (mkWaveformModel seed none).data = (List.range DEFAULT_BUFFER_SIZE).map seed := by
  unfold mkWaveformModel
  simp only []

/-- C8 counterexample: a waveform model constructed without a stored
`bufferSize` configuration entry has a buffer of 1000 samples
(`DEFAULT_BUFFER_SIZE` in waveform_model.cpp), not 250 × 10 = 2500. -/
theorem C8_default_buffer_size_counterexample :
    (mkWaveformModel (fun _ => 0) none).data.length = 1000 ∧
    (1000 : ℕ) ≠ 250 * 10 := by
  constructor
  · rw [mkWaveformModel_none_data, List.length_map, List.length_range]
    rfl
  · decide

/-- C8 amended: for every seeding function, a waveform model constructed
without a stored `bufferSize` entry has buffer capacity and initialized
(seeded) buffer length `DEFAULT_BUFFER_SIZE = 1000` samples. -/
theorem C8_default_buffer_size (seed : ℕ → ℚ) :
    (mkWaveformModel seed none).data.length = DEFAULT_BUFFER_SIZE ∧
    (mkWaveformModel seed none).maxBufferSize = DEFAULT_BUFFER_SIZE ∧
    DEFAULT_BUFFER_SIZE = 1000 := by
  refine ⟨?_, rfl, rfl⟩
  rw [mkWaveformModel_none_data, List.length_map, List.length_range]

/-- Provider names are modelled as lists of character codes (the claims need
only emptiness tests and map membership); `[]` is the empty string. -/
def demoProviderName : List ℕ := [68, 101, 109, 111]

/-- Actions and signal emissions performed by `DataManager::SetActiveProvider`,
in program order. -/
inductive DMAction where
  | disconnectSignals
  | stopProvider
  | connectSignals
  | setLastProvider (name : List ℕ)
  | emitActiveProviderChanged (name : List ℕ)
deriving DecidableEq, Repr

/-- State of the `DataManager` (data_manager.cpp) relevant to provider
switching: the registered provider names, the (nullable) active provider,
and the configuration collaborator's stored last-provider value
(`ConfigManager::SetLastProvider`). -/
structure DMState where
  providers : List (List ℕ)
  currentProvider : Option (List ℕ)
  lastProviderSetting : Option (List ℕ)
deriving DecidableEq, Repr

/-- `DataManager::saveCurrentProviderToSettings` (data_manager.cpp lines
565–571): persists the CURRENT provider's name — a no-op when no provider
is active. -/
def saveCurrentProviderToSettings (s : DMState) : DMState :=
  match s.currentProvider with
  | some n => { s with lastProviderSetting := some n }
  | none => s

/-- `DataManager::SetActiveProvider(providerName)` (data_manager.cpp lines
194–237).  Returns the new state, the boolean result, and the list of
actions/emissions in program order.  Note that in the empty-name branch the
provider pointer is cleared BEFORE `saveCurrentProviderToSettings` runs, so
that call persists nothing. -/
def SetActiveProvider (s : DMState) (providerName : List ℕ) :
    DMState × Bool × List DMAction :=
  if providerName = [] ∧ s.currentProvider.isSome then
    let s1 : DMState := { s with currentProvider := none }
    let s2 := saveCurrentProviderToSettings s1
    (s2, true, [.disconnectSignals, .stopProvider,
                .emitActiveProviderChanged providerName])
  else if providerName ∉ s.providers then
    (s, false, [])
  else
    let pre : List DMAction :=
      if s.currentProvider.isSome then [.disconnectSignals, .stopProvider] else []
    let s1 : DMState :=
      { s with currentProvider := some providerName
               lastProviderSetting := some providerName }
    (s1, true, pre ++ [.connectSignals, .setLastProvider providerName,
                       .emitActiveProviderChanged providerName])

/-- C6 counterexample: with the Demo provider active and recorded as the
last-used provider, `setActiveProvider("")` stops/detaches it, returns true
and emits one active-provider-changed event with the empty name — but the
configuration still records the OLD provider name: no "none" marker is
persisted, because `saveCurrentProviderToSettings` runs after the provider
pointer was cleared and is then a no-op. -/
theorem C6_deactivate_persist_counterexample :
    let s : DMState := ⟨[demoProviderName], some demoProviderName, some demoProviderName⟩
    let r := SetActiveProvider s []
    r.1.currentProvider = none ∧
    r.2.1 = true ∧
    r.2.2 = [DMAction.disconnectSignals, DMAction.stopProvider,
             DMAction.emitActiveProviderChanged []] ∧
    r.1.lastProviderSetting = some demoProviderName ∧
    some demoProviderName ≠ (none : Option (List ℕ)) := by
  refine ⟨rfl, rfl, rfl, rfl, by decide⟩

/-- C6 amended: calling `setActiveProvider` with an empty name while a
provider is active deactivates it (signals detached, provider stopped,
pointer cleared), returns true and emits exactly one
active-provider-changed event with the empty name — but the configuration
collaborator's last-provider entry is left untouched (nothing is
persisted): the save call is a no-op because the provider pointer is
cleared before it runs. -/
theorem C6_deactivate_empty_name (s : DMState) (p : List ℕ)
    (hcur : s.currentProvider = some p) :
    SetActiveProvider s [] =
      ({ s with currentProvider := none }, true,
       [DMAction.disconnectSignals, DMAction.stopProvider,
        DMAction.emitActiveProviderChanged []]) := by
  unfold SetActiveProvider
  rw [if_pos ⟨rfl, by rw [hcur]; rfl⟩]
  rfl

/-- Witness for the C6 amended theorem with the Demo provider active. -/
theorem C6_deactivate_empty_name_witness :
    SetActiveProvider ⟨[demoProviderName], some demoProviderName, some demoProviderName⟩ [] =
      (⟨[demoProviderName], none, some demoProviderName⟩, true,
       [DMAction.disconnectSignals, DMAction.stopProvider,
        DMAction.emitActiveProviderChanged []]) :=
  C6_deactivate_empty_name
    ⟨[demoProviderName], some demoProviderName, some demoProviderName⟩
    demoProviderName rfl

/-- The waveform type identifiers of the catalog: the 9 values of
`VitalSync::WaveformType` (vital_sync_types.h lines 33–43). -/
def waveformCatalogIds : List ℤ := [0, 1, 2, 3, 4, 5, 6, 7, 8]

/-- The parameter type identifiers of the catalog: the 15 values of
`VitalSync::ParameterType` (vital_sync_types.h lines 54–70). -/
def parameterCatalogIds : List ℤ :=
  [0, 1, 2, 3, 4, 5, 6, 7, 8, 9, 10, 11, 12, 13, 14]

/-- `DataManager::initializeWaveformModels` (data_manager.cpp lines
438–446): the loop `for (int i = 0; i < 13; ++i)` creates one model per
identifier 0..12 and stores it in the type-keyed map. -/
def initializeWaveformModelIds : List ℤ :=
  [0, 1, 2, 3, 4, 5, 6, 7, 8, 9, 10, 11, 12]

/-- `DataManager::initializeParameterModels` (data_manager.cpp lines
455–463): the loop `for (int i = 0; i < 18; ++i)` creates one model per
identifier 0..17. -/
def initializeParameterModelIds : List ℤ :=
  [0, 1, 2, 3, 4, 5, 6, 7, 8, 9, 10, 11, 12, 13, 14, 15, 16, 17]

/-- `DataManager::GetWaveformModel(id)` (data_manager.cpp lines 268–277):
map lookup, `nullptr` when absent.  The model instance itself is abstracted
to its type identifier — the claims under study concern only presence. -/
def GetWaveformModel (waveformId : ℤ) : Option ℤ :=
  if waveformId ∈ initializeWaveformModelIds then some waveformId else none

/-- `DataManager::GetParameterModel(id)` (data_manager.cpp lines 306–315). -/
def GetParameterModel (parameterId : ℤ) : Option ℤ :=
  if parameterId ∈ initializeParameterModelIds then some parameterId else none

/-- C7 counterexample: after initialization the coordinator DOES hold models
for type identifiers outside the catalog: waveform id 9 (catalog is 0..8)
and parameter id 15 (catalog is 0..14) both yield non-null models, because
the initialization loops run to 13 and 18 respectively. -/
theorem C7_models_outside_catalog_counterexample :
    (GetWaveformModel 9).isSome = true ∧ (9 : ℤ) ∉ waveformCatalogIds ∧
    (GetParameterModel 15).isSome = true ∧ (15 : ℤ) ∉ parameterCatalogIds := by
  refine ⟨by decide, by decide, by decide, by decide⟩

/-- C7 amended: initialization creates exactly one waveform model per
identifier 0..12 and one parameter model per identifier 0..17 — a superset
of the catalog (0..8 waveforms, 0..14 parameters).  Every catalog
identifier has a model, and lookups return null exactly outside 0..12
(waveforms) resp. 0..17 (parameters). -/
theorem C7_model_maps_cover_catalog :
    (waveformCatalogIds.all fun id => (GetWaveformModel id).isSome) = true ∧
    (parameterCatalogIds.all fun id => (GetParameterModel id).isSome) = true ∧
    (∀ id : ℤ, (GetWaveformModel id).isSome ↔ 0 ≤ id ∧ id < 13) ∧
    (∀ id : ℤ, (GetParameterModel id).isSome ↔ 0 ≤ id ∧ id < 18) := by
  refine ⟨by decide, by decide, ?_, ?_⟩
  · intro id
    unfold GetWaveformModel
    by_cases hm : id ∈ initializeWaveformModelIds
    · rw [if_pos hm]
      simp only [Option.isSome_some, true_iff]
      simp only [initializeWaveformModelIds, List.mem_cons, List.not_mem_nil,
        or_false] at hm
      omega
    · rw [if_neg hm]
      simp only [Option.isSome_none, Bool.false_eq_true, false_iff]
      intro hlt
      apply hm
      simp only [initializeWaveformModelIds, List.mem_cons, List.not_mem_nil,
        or_false]
      omega
  · intro id
    unfold GetParameterModel
    by_cases hm : id ∈ initializeParameterModelIds
    · rw [if_pos hm]
      simp only [Option.isSome_some, true_iff]
      simp only [initializeParameterModelIds, List.mem_cons, List.not_mem_nil,
        or_false] at hm
      omega
    · rw [if_neg hm]
      simp only [Option.isSome_none, Bool.false_eq_true, false_iff]
      intro hlt
      apply hm
      simp only [initializeParameterModelIds, List.mem_cons, List.not_mem_nil,
        or_false]
      omega

/-- The body of a synthesis tick, as a computation that may raise a runtime
exception (`Except.error`).  `DemoDataProvider::generateWaveformData`
(demo_data_provider.cpp lines 427–462) guards on the active flag and then
runs the per-waveform generators with NO try/catch: an exception raised by
the body propagates out of the tick handler. -/
def waveformTickHandler (active : Bool) (body : Except ℕ α) :
    Except ℕ (Option α) :=
  if active then body.map some else .ok none

/-- `DemoDataProvider::generateParameterData` (demo_data_provider.cpp lines
537–753) guards on connected/active and wraps the entire synthesis body in
`try { ... } catch (const std::exception&) { ... } catch (...) { ... }`:
any exception is caught and logged, and the tick is skipped. -/
def parameterTickHandler (connected : Bool) (body : Except ℕ α) :
    Except ℕ (Option α) :=
  if connected then
    match body with
    | .ok a => .ok (some a)
    | .error _ => .ok none
  else .ok none

/-- C5 counterexample: the waveform tick is NOT wrapped — an exception
raised during an active waveform tick propagates out of
`generateWaveformData` instead of being caught at the tick boundary. -/
theorem C5_waveform_tick_unguarded_counterexample :
    waveformTickHandler true (Except.error 7 : Except ℕ (List ℚ)) =
      Except.error 7 := rfl

/-- C5 amended: only the parameter tick (`generateParameterData`) is wrapped
at the tick boundary: whatever the tick body does, the handler never lets an
exception escape, and a failing body results in the tick being skipped
(no output).  The waveform tick (`generateWaveformData`) has no such
wrapper (see the counterexample). -/
theorem C5_parameter_tick_guarded (connected : Bool) (body : Except ℕ ℚ) :
    (∃ r, parameterTickHandler connected body = Except.ok r) ∧
    (∀ e, parameterTickHandler true (Except.error e : Except ℕ ℚ) =
      Except.ok none) := by
  constructor
  · unfold parameterTickHandler
    by_cases hc : connected
    · rw [if_pos hc]
      cases body with
      | ok a => exact ⟨some a, rfl⟩
      | error e => exact ⟨none, rfl⟩
    · rw [if_neg hc]
      exact ⟨none, rfl⟩
  · intro e
    rfl

/-- The random draws consumed by one call to `generateExtremeValue` or
`generateCriticalExtremeValue` (demo_data_provider.cpp lines 476–527):
`p1`, `p2` are `random_.bounded(100)` draws (range 0..99) and `f` is the
`random_.bounded(20)` resp. `random_.bounded(25)` excursion draw. -/
structure Draws3 where
  p1 : ℕ
  p2 : ℕ
  f : ℕ
deriving DecidableEq, Repr

/-- `DemoDataProvider::generateExtremeValue(baseValue, minValue, maxValue,
cycleCount)` (demo_data_provider.cpp lines 476–494): every 8th cycle, with
probability 40%, exceed the normal maximum by 10–30% (60% of the time) or
fall below the normal minimum by 10–30%. -/
def generateExtremeValue (baseValue minValue maxValue : ℚ) (cycleCount : ℤ)
    (d : Draws3) : ℚ :=
  if cycleCount % 8 = 0 ∧ d.p1 < 40 then
    if d.p2 < 60 then maxValue * (110 / 100 + (d.f : ℚ) / 100)
    else minValue * (90 / 100 - (d.f : ℚ) / 100)
  else baseValue

/-- `DemoDataProvider::generateCriticalExtremeValue` (demo_data_provider.cpp
lines 508–527): every 5th cycle, with probability 60%, exceed by 15–40%
(70% of the time) or fall below by 15–40%. -/
def generateCriticalExtremeValue (baseValue minValue maxValue : ℚ)
    (cycleCount : ℤ) (d : Draws3) : ℚ :=
  if cycleCount % 5 = 0 ∧ d.p1 < 60 then
    if d.p2 < 70 then maxValue * (115 / 100 + (d.f : ℚ) / 100)
    else minValue * (85 / 100 - (d.f : ℚ) / 100)
  else baseValue

/-- `DemoDataProvider::addVariation(base_value, variation_pct)`
(demo_data_provider.cpp lines 1182–1199): clamp the percentage to [0,1],
then add `(2r − 1) · base · pct` where `r` is the `generateDouble()` draw. -/
def addVariation (base_value variation_pct r : ℚ) : ℚ :=
  let pct := max 0 (min variation_pct 1)
  let max_variation := base_value * pct
  let variation := (r * 2 - 1) * max_variation
  base_value + variation

/-- Qt's `qRound`: `d >= 0 ? int(d + 0.5) : int(d - 0.5)` with the C++
truncation towards zero, i.e. floor on the non-negative side and ceiling on
the negative side. -/
def qRound (q : ℚ) : ℤ :=
  if 0 ≤ q then ⌊q + 1 / 2⌋ else ⌈q - 1 / 2⌉

/-- The baseline values that `generateParameterData` copies under the mutex
before computing a tick (demo_data_provider.cpp lines 554–564). -/
structure ParamBaselines where
  heart_rate : ℚ
  respiration_rate : ℚ
  spo2 : ℚ
  systolic_bp : ℚ
  diastolic_bp : ℚ
  temperature : ℚ
  temperature2 : ℚ
  etco2 : ℚ
  ibp2_sys : ℚ
  ibp2_dia : ℚ
deriving DecidableEq, Repr

/-- All inputs of one parameter tick that the code obtains from the random
generator (`bounded`, `generateDouble`) or from the transcendental `sin`
(the two slow-oscillation factors), one field per call site, in source
order.  `…Var` fields are `generateDouble()` draws, `…P`/`…V` fields are
`bounded(n)` draws, `hrSin = sin(cycleCounter * 0.005)` and
`cvpSin = sin((cycleCounter + 50) * 0.025)`. -/
structure ParamOracle where
  hrSin : ℚ
  cvpSin : ℚ
  hrE : Draws3
  hrVar : ℚ
  rrE : Draws3
  rrVar : ℚ
  spo2E : Draws3
  spo2LowP : ℕ
  spo2LowV : ℕ
  spo2Var : ℚ
  sysE : Draws3
  diaE : Draws3
  sysVar : ℚ
  diaVar : ℚ
  ibp1SysE : Draws3
  ibp1DiaE : Draws3
  ibp1SysVar : ℚ
  ibp1DiaVar : ℚ
  ibp2SysE : Draws3
  ibp2DiaE : Draws3
  ibp2SysVar : ℚ
  ibp2DiaVar : ℚ
  tempE : Draws3
  feverP : ℕ
  feverV : ℕ
  hypoP : ℕ
  hypoV : ℕ
  tempVar : ℚ
  temp2E : Draws3
  temp2Var : ℚ
  etco2E : Draws3
  capnoP : ℕ
  capnoP2 : ℕ
  capnoHigh : ℕ
  capnoLow : ℕ
  etco2Var : ℚ
deriving DecidableEq, Repr

/-- Heart rate emitted by one parameter tick (demo_data_provider.cpp lines
577–583): slow sine drift of ±3 bpm, critical extreme-value injection over
the 40–150 normal range, ±2% variation, rounded.  `cyc` is the incremented
cycle counter. -/
def hrEmitted (b : ParamBaselines) (cyc : ℤ) (o : ParamOracle) : ℤ :=
  let hrFactor := o.hrSin * 3
  let hr_base := b.heart_rate + hrFactor
  let hr_base := generateCriticalExtremeValue hr_base 40 150 cyc o.hrE
  qRound (addVariation hr_base (2 / 100) o.hrVar)

/-- Respiration rate emitted by one parameter tick (lines 585–591). -/
def rrEmitted (b : ParamBaselines) (cyc : ℤ) (o : ParamOracle) : ℤ :=
  let heartRate := hrEmitted b cyc o
  let rrFactor : ℚ := if (heartRate : ℚ) > b.heart_rate then 2 / 10 else -2 / 10
  let rr_base := b.respiration_rate + rrFactor
  let rr_base := generateExtremeValue rr_base 8 30 (cyc + 3) o.rrE
  qRound (addVariation rr_base (3 / 100) o.rrVar)

/-- SpO2 emitted by one parameter tick (lines 593–609): inverse correlation
with heart rate, critical extreme-value injection over 94–100, the scripted
severe-hypoxemia scenario (every 30th cycle with probability 25%, a 70–85%
value), ±1% variation, rounded, then clamped with `std::min(spo2, 100)`. -/
def spo2Emitted (b : ParamBaselines) (cyc : ℤ) (o : ParamOracle) : ℤ :=
  let heartRate := hrEmitted b cyc o
  let spo2Factor : ℚ := if (heartRate : ℚ) > b.heart_rate + 10 then -2 / 10 else 1 / 10
  let spo2_base := b.spo2 + spo2Factor
  let spo2_base := generateCriticalExtremeValue spo2_base 94 100 (cyc + 7) o.spo2E
  let spo2_base := if cyc % 30 = 0 ∧ o.spo2LowP < 25 then 70 + (o.spo2LowV : ℚ)
    else spo2_base
  let spo2 := qRound (addVariation spo2_base (1 / 100) o.spo2Var)
  min spo2 100

/-- NIBP systolic value as sampled, before the systolic-above-diastolic
forcing (lines 611–622). -/
def nibpSysSampled (b : ParamBaselines) (cyc : ℤ) (o : ParamOracle) : ℤ :=
  let heartRate := hrEmitted b cyc o
  let sysFactor : ℚ := if (heartRate : ℚ) > b.heart_rate then 5 / 10 else -3 / 10
  let sys_base := b.systolic_bp + sysFactor
  let sys_base := generateCriticalExtremeValue sys_base 90 140 (cyc + 11) o.sysE
  qRound (addVariation sys_base (3 / 100) o.sysVar)

/-- NIBP diastolic value emitted (lines 611–622; the forcing never changes
the diastolic value). -/
def nibpDiaEmitted (b : ParamBaselines) (cyc : ℤ) (o : ParamOracle) : ℤ :=
  let heartRate := hrEmitted b cyc o
  let diaFactor : ℚ := if (heartRate : ℚ) > b.heart_rate then -3 / 10 else 2 / 10
  let dia_base := b.diastolic_bp + diaFactor
  let dia_base := generateCriticalExtremeValue dia_base 60 90 (cyc + 13) o.diaE
  qRound (addVariation dia_base (3 / 100) o.diaVar)

/-- NIBP systolic value emitted, after the post-sampling forcing
`if (systolicBP <= diastolicBP) systolicBP = diastolicBP + 20` (lines
624–627). -/
def nibpSysEmitted (b : ParamBaselines) (cyc : ℤ) (o : ParamOracle) : ℤ :=
  if nibpSysSampled b cyc o ≤ nibpDiaEmitted b cyc o then
    nibpDiaEmitted b cyc o + 20
  else nibpSysSampled b cyc o

/-- NIBP mean emitted: `qRound(diastolicBP + (systolicBP - diastolicBP) / 3.0)`
computed from the POST-forcing systolic/diastolic of the same tick
(line 629). -/
def nibpMeanEmitted (b : ParamBaselines) (cyc : ℤ) (o : ParamOracle) : ℤ :=
  qRound ((nibpDiaEmitted b cyc o : ℚ) +
    ((nibpSysEmitted b cyc o : ℚ) - (nibpDiaEmitted b cyc o : ℚ)) / 3)

/-- IBP1 (arterial) systolic as sampled (lines 631–640): NIBP systolic + 5
with general extreme-value injection and ±2% variation. -/
def ibp1SysSampled (b : ParamBaselines) (cyc : ℤ) (o : ParamOracle) : ℤ :=
  let base := (nibpSysEmitted b cyc o : ℚ) + 5
  let base := generateExtremeValue base 90 140 (cyc + 17) o.ibp1SysE
  qRound (addVariation base (2 / 100) o.ibp1SysVar)

/-- IBP1 diastolic emitted (lines 631–640). -/
def ibp1DiaEmitted (b : ParamBaselines) (cyc : ℤ) (o : ParamOracle) : ℤ :=
  let base := (nibpDiaEmitted b cyc o : ℚ) - 2
  let base := generateExtremeValue base 60 90 (cyc + 19) o.ibp1DiaE
  qRound (addVariation base (2 / 100) o.ibp1DiaVar)

/-- IBP1 systolic emitted after the forcing (lines 642–645, margin 20). -/
def ibp1SysEmitted (b : ParamBaselines) (cyc : ℤ) (o : ParamOracle) : ℤ :=
  if ibp1SysSampled b cyc o ≤ ibp1DiaEmitted b cyc o then
    ibp1DiaEmitted b cyc o + 20
  else ibp1SysSampled b cyc o

/-- IBP1 mean emitted, from the post-forcing values of the same tick
(line 647). -/
def ibp1MeanEmitted (b : ParamBaselines) (cyc : ℤ) (o : ParamOracle) : ℤ :=
  qRound ((ibp1DiaEmitted b cyc o : ℚ) +
    ((ibp1SysEmitted b cyc o : ℚ) - (ibp1DiaEmitted b cyc o : ℚ)) / 3)

/-- IBP2 (CVP) systolic as sampled (lines 649–659): slow sine oscillation,
general extreme-value injection over 2–8, ±8% variation. -/
def ibp2SysSampled (b : ParamBaselines) (cyc : ℤ) (o : ParamOracle) : ℤ :=
  let base := b.ibp2_sys + o.cvpSin * 2
  let base := generateExtremeValue base 2 8 (cyc + 23) o.ibp2SysE
  qRound (addVariation base (8 / 100) o.ibp2SysVar)

/-- IBP2 diastolic emitted (lines 649–659). -/
def ibp2DiaEmitted (b : ParamBaselines) (cyc : ℤ) (o : ParamOracle) : ℤ :=
  let base := b.ibp2_dia + o.cvpSin * (3 / 2)
  let base := generateExtremeValue base 2 8 (cyc + 29) o.ibp2DiaE
  qRound (addVariation base (8 / 100) o.ibp2DiaVar)

/-- IBP2 systolic emitted after the forcing (lines 661–664, margin 2). -/
def ibp2SysEmitted (b : ParamBaselines) (cyc : ℤ) (o : ParamOracle) : ℤ :=
  if ibp2SysSampled b cyc o ≤ ibp2DiaEmitted b cyc o then
    ibp2DiaEmitted b cyc o + 2
  else ibp2SysSampled b cyc o

/-- IBP2 mean emitted, from the post-forcing values of the same tick
(line 666). -/
def ibp2MeanEmitted (b : ParamBaselines) (cyc : ℤ) (o : ParamOracle) : ℤ :=
  qRound ((ibp2DiaEmitted b cyc o : ℚ) +
    ((ibp2SysEmitted b cyc o : ℚ) - (ibp2DiaEmitted b cyc o : ℚ)) / 3)

/-- Core temperature emitted (lines 668–683): extreme-value injection over
36–38, scripted fever (every 25th cycle, 30%: 39–41 °C) or hypothermia
(every 40th cycle, 20%: 33–35 °C), ±0.5% variation; emitted unrounded. -/
def tempEmitted (b : ParamBaselines) (cyc : ℤ) (o : ParamOracle) : ℚ :=
  let base := b.temperature
  let base := generateExtremeValue base 36 38 (cyc + 31) o.tempE
  let base :=
    if cyc % 25 = 0 ∧ o.feverP < 30 then 39 + (o.feverV : ℚ) / 100
    else if cyc % 40 = 0 ∧ o.hypoP < 20 then 33 + (o.hypoV : ℚ) / 100
    else base
  addVariation base (5 / 1000) o.tempVar

/-- Peripheral temperature emitted (lines 685–690). -/
def temp2Emitted (b : ParamBaselines) (cyc : ℤ) (o : ParamOracle) : ℚ :=
  let heartRate := hrEmitted b cyc o
  let temp2Factor : ℚ :=
    if heartRate < 60 then -1 / 10 else if heartRate > 100 then 1 / 10 else 0
  let base := b.temperature2 + temp2Factor
  let base := generateExtremeValue base (355 / 10) (375 / 10) (cyc + 37) o.temp2E
  addVariation base (8 / 1000) o.temp2Var

/-- EtCO2 emitted (lines 692–711): respiration-rate coupling, extreme-value
injection over 35–45, scripted hypercapnia/hypocapnia (every 22nd cycle,
35%), ±4% variation, rounded. -/
def etco2Emitted (b : ParamBaselines) (cyc : ℤ) (o : ParamOracle) : ℤ :=
  let respirationRate := rrEmitted b cyc o
  let etco2Factor : ℚ :=
    if respirationRate > 20 then (-2 / 10) * ((respirationRate : ℚ) - 20)
    else if respirationRate < 10 then (3 / 10) * (10 - (respirationRate : ℚ))
    else 0
  let base := b.etco2 + etco2Factor
  let base := generateExtremeValue base 35 45 (cyc + 41) o.etco2E
  let base :=
    if cyc % 22 = 0 ∧ o.capnoP < 35 then
      (if o.capnoP2 < 50 then 50 + (o.capnoHigh : ℚ) else 15 + (o.capnoLow : ℚ))
    else base
  qRound (addVariation base (4 / 100) o.etco2Var)

/-- The `(parameter type id, value)` pairs emitted via
`parameterDataReceived` by one connected parameter tick, in the source's
emission order (demo_data_provider.cpp lines 729–747; ids are the
`VitalSync::ParameterType` values, payloads are the emitted values cast to
float). -/
def emittedParameters (b : ParamBaselines) (cyc : ℤ) (o : ParamOracle) :
    List (ℤ × ℚ) :=
  [(0, (hrEmitted b cyc o : ℚ)),
   (1, (rrEmitted b cyc o : ℚ)),
   (2, (spo2Emitted b cyc o : ℚ)),
   (3, (nibpSysEmitted b cyc o : ℚ)),
   (4, (nibpDiaEmitted b cyc o : ℚ)),
   (5, (nibpMeanEmitted b cyc o : ℚ)),
   (8, (etco2Emitted b cyc o : ℚ)),
   (6, tempEmitted b cyc o),
   (7, temp2Emitted b cyc o),
   (9, (ibp1SysEmitted b cyc o : ℚ)),
   (10, (ibp1DiaEmitted b cyc o : ℚ)),
   (11, (ibp1MeanEmitted b cyc o : ℚ)),
   (12, (ibp2SysEmitted b cyc o : ℚ)),
   (13, (ibp2DiaEmitted b cyc o : ℚ)),
   (14, (ibp2MeanEmitted b cyc o : ℚ))]

/-- C9: on every parameter tick — for all baselines, cycle counters and
random/sine draws — each blood-pressure group satisfies: the emitted
systolic strictly exceeds the emitted diastolic (the post-sampling forcing
adds diastolic + 20, resp. + 2 for CVP, whenever the sampled systolic was
not above the diastolic, so the emitted integer pair always keeps a fixed
positive margin of at least 1), and the emitted mean equals
diastolic + (systolic − diastolic)/3 (rounded) recomputed from that same
tick's POST-forcing emitted systolic and diastolic. -/
theorem C9_bp_forcing_and_mean (b : ParamBaselines) (cyc : ℤ) (o : ParamOracle) :
    (nibpDiaEmitted b cyc o + 1 ≤ nibpSysEmitted b cyc o ∧
     nibpMeanEmitted b cyc o =
       qRound ((nibpDiaEmitted b cyc o : ℚ) +
         ((nibpSysEmitted b cyc o : ℚ) - (nibpDiaEmitted b cyc o : ℚ)) / 3)) ∧
    (ibp1DiaEmitted b cyc o + 1 ≤ ibp1SysEmitted b cyc o ∧
     ibp1MeanEmitted b cyc o =
       qRound ((ibp1DiaEmitted b cyc o : ℚ) +
         ((ibp1SysEmitted b cyc o : ℚ) - (ibp1DiaEmitted b cyc o : ℚ)) / 3)) ∧
    (ibp2DiaEmitted b cyc o + 1 ≤ ibp2SysEmitted b cyc o ∧
     ibp2MeanEmitted b cyc o =
       qRound ((ibp2DiaEmitted b cyc o : ℚ) +
         ((ibp2SysEmitted b cyc o : ℚ) - (ibp2DiaEmitted b cyc o : ℚ)) / 3)) := by
  refine ⟨⟨?_, rfl⟩, ⟨?_, rfl⟩, ⟨?_, rfl⟩⟩
  · unfold nibpSysEmitted
    split_ifs with h <;> omega
  · unfold ibp1SysEmitted
    split_ifs with h <;> omega
  · unfold ibp2SysEmitted
    split_ifs with h <;> omega

/-- C10: on every parameter tick — for all baselines, cycle counters and
random/sine draws — the emitted SpO2 value is at most 100: after natural
variation, critical extreme-value injection and the scripted hypoxemia
scenario, `std::min(spo2, 100)` clamps the value before emission, and the
pair emitted for the SpO2 parameter id (2) carries exactly that clamped
value. -/
theorem C10_spo2_never_above_100 (b : ParamBaselines) (cyc : ℤ) (o : ParamOracle) :
    spo2Emitted b cyc o ≤ 100 ∧
    ((2 : ℤ), (spo2Emitted b cyc o : ℚ)) ∈ emittedParameters b cyc o := by
  constructor
  · unfold spo2Emitted
    exact min_le_right _ _
  · unfold emittedParameters
    simp
